import Mathlib

/-!
Verification of the Guavas dashboard metrics and alerting layer.

The Python sources `calculations.py` (class `MetricsCalculator`) and
`data_loader.py` (class `DataLoader`, method `get_alerts` and the KPI
extraction helpers) are shallowly embedded below.  Numbers are modelled
as rationals (`ℚ`); dates as integer day numbers (`ℤ`); pandas
missing values (`NaN` / `NaT`) as `Option` or an explicit `CellVal.nan`
constructor where the code's `pd.isna` checks matter.
-/

set_option maxRecDepth 4000

/-- Python's built-in `abs` on an exact rational value.  (Defined by the
sign test so that concrete evaluations reduce inside the kernel.) -/
def ratAbs (q : ℚ) : ℚ := if q < 0 then -q else q

/-- Left-pad a digit string with zeros to the requested length
(used to render the fractional part of a fixed-point number). -/
def padZeros (s : String) (len : Nat) : String :=
  if s.length < len then String.mk (List.replicate (len - s.length) '0') ++ s
  else s

/-- Round a rational to the nearest integer, ties to even — the rounding
used by Python's fixed-point string formatting. -/
def roundHalfEven (q : ℚ) : ℤ :=
  let f := ⌊q⌋
  if q - f < 1 / 2 then f
  else if 1 / 2 < q - f then f + 1
  else if f % 2 = 0 then f else f + 1

/-- Render `q` with exactly `places` digits after the decimal point,
as Python's `f"{q:.{places}f}"` does for an exact value. -/
def formatFixed (q : ℚ) (places : Nat) : String :=
  let n := roundHalfEven (q * (10 : ℚ) ^ places)
  let sign := if n < 0 ∨ (n = 0 ∧ q < 0) then "-" else ""
  let m := n.natAbs
  let ip := m / 10 ^ places
  let fp := m % 10 ^ places
  if places = 0 then sign ++ toString ip
  else sign ++ toString ip ++ "." ++ padZeros (toString fp) places

namespace MetricsCalculator

/-- `calculate_cpl` from `calculations.py`: `spent / leads`, returning the
sentinel `0` when `leads == 0` (the `pd.isna(leads)` branch of the source
also returns `0` and is subsumed by modelling `leads` as a rational). -/
def calculate_cpl (spent leads : ℚ) : ℚ :=
  if leads = 0 then 0 else spent / leads

/-- `calculate_conversion_rate` from `calculations.py`. -/
def calculate_conversion_rate (stage_a stage_b : ℚ) : ℚ :=
  if stage_a = 0 then 0 else stage_b / stage_a * 100

/-- `calculate_mom_change` from `calculations.py`: month-over-month
percentage change, `0` when the previous value is `0` (or NaN). -/
def calculate_mom_change (current previous : ℚ) : ℚ :=
  if previous = 0 then 0 else (current - previous) / previous * 100

/-- `calculate_wow_change` from `calculations.py`: the source delegates
directly to `calculate_mom_change`. -/
def calculate_wow_change (current previous : ℚ) : ℚ :=
  calculate_mom_change current previous

/-- `get_trend_indicator` from `calculations.py`: returns
(direction, symbol, color).  The `pd.isna` guards of the source are
subsumed by the rational model; `previous == 0` yields neutral. -/
def get_trend_indicator (current previous : ℚ) (reverse_polarity : Bool) :
    String × String × String :=
  if previous = 0 then ("neutral", "→", "neutral")
  else
    let change := (current - previous) / ratAbs previous * 100
    if ratAbs change < 1 then ("neutral", "→", "neutral")
    else if 0 < change then
      ("up", "↑", if reverse_polarity then "danger" else "success")
    else
      ("down", "↓", if reverse_polarity then "success" else "danger")

/-- `calculate_channel_efficiency_score` from `calculations.py`:
volume (≤30) + cost efficiency (≤35) + conversion (≤35) components. -/
def calculate_channel_efficiency_score (leads cpl conversion_rate
    benchmark_cpl benchmark_conversion : ℚ) : ℚ :=
  let volume_score := min 30 (leads / 50 * 30)
  let cost_score := if 0 < cpl then min 35 (benchmark_cpl / cpl * 35) else 35
  let conversion_score := min 35 (conversion_rate / benchmark_conversion * 35)
  volume_score + cost_score + conversion_score

/-- `format_currency` from `calculations.py`: £ with M/K abbreviation at
one decimal above a million / a thousand in magnitude, otherwise two
decimals.  The `pd.isna` branch returning `"£0"` is outside the rational
model. -/
def format_currency (value : ℚ) (include_symbol : Bool) : String :=
  let symbol := if include_symbol then "£" else ""
  if 1000000 ≤ ratAbs value then symbol ++ formatFixed (value / 1000000) 1 ++ "M"
  else if 1000 ≤ ratAbs value then symbol ++ formatFixed (value / 1000) 1 ++ "K"
  else symbol ++ formatFixed value 2

end MetricsCalculator

/-- `Alert` record produced by `DataLoader.get_alerts` in `data_loader.py`:
fields `type`, `title`, `message`, `action` of the Python dict. -/
structure Alert where
  type : String
  title : String
  message : String
  action : String
deriving DecidableEq

/-- A `ChannelRecord` as produced by `DataLoader.get_channel_data`
(`data_loader.py`): one row of the channels DataFrame. -/
structure Channel where
  channel : String
  chType : String
  status : String
  priority : String
  budget : ℚ
  leads : ℚ
  cpl : ℚ
  conversion : ℚ
deriving DecidableEq

/-- A content-calendar row as used by the overdue-content rule: topic,
status and an optional due date (`none` models pandas `NaT`).  Dates are
integer day numbers; pandas comparisons with `NaT` are false. -/
structure ContentItem where
  topic : String
  status : String
  due_Date : Option ℤ
deriving DecidableEq

/-- A partner-performance row as used by the inactive-partner rule:
optional partner name (`none` models a `NaN` cell) and optional last
referral date (`none` models `NaT`). -/
structure Partner where
  partner_Name : Option String
  last_Referral : Option ℤ
deriving DecidableEq

/-- The session threshold configuration read by `get_alerts`
(`st.session_state.thresholds`): `max_cpl` and `partner_inactive_days`. -/
structure Thresholds where
  max_cpl : ℚ
  partner_inactive_days : ℤ
deriving DecidableEq

namespace DataLoader

/-- The alert dict built for one high-CPL channel in `get_alerts`. -/
def mkCplAlert (max_cpl : ℚ) (ch : Channel) : Alert :=
  { type := "warning"
    title := ch.channel ++ ": High CPL"
    message := "£" ++ formatFixed ch.cpl 2 ++ " exceeds target £" ++ toString max_cpl
    action := "Review campaign performance" }

/-- The high-CPL section of `get_alerts`: the DataFrame is first filtered
to rows with `CPL > max_cpl`, then each row with `CPL > 0` contributes one
warning alert. -/
def cplAlerts (channels : List Channel) (max_cpl : ℚ) : List Alert :=
  (channels.filter (fun ch => max_cpl < ch.cpl)).filterMap (fun ch =>
    if 0 < ch.cpl then some (mkCplAlert max_cpl ch) else none)

/-- The overdue predicate of `get_alerts`: due date present and strictly
before today, and status different from `Completed`.  (A `NaT` due date
compares false in pandas, hence is never overdue.) -/
def isOverdue (today : ℤ) (item : ContentItem) : Bool :=
  (match item.due_Date with
   | some d => decide (d < today)
   | none => false) && decide (item.status ≠ "Completed")

/-- The single aggregated urgent alert built in `get_alerts` when the
overdue count is positive. -/
def mkOverdueAlert (count : Nat) : Alert :=
  { type := "urgent"
    title := toString count ++ " content item(s) overdue"
    message := "Review Content Calendar"
    action := "Complete or reschedule" }

/-- The overdue-content section of `get_alerts`. -/
def overdueAlerts (content : List ContentItem) (today : ℤ) : List Alert :=
  let overdue := content.filter (isOverdue today)
  if 0 < overdue.length then [mkOverdueAlert overdue.length] else []

/-- `days_inactive` as computed in `get_alerts`: `(today - last_referral).days`
when the date is present, the sentinel `999` when it is missing. -/
def partnerDaysInactive (today : ℤ) (last_Referral : Option ℤ) : ℤ :=
  match last_Referral with
  | some d => today - d
  | none => 999

/-- The inactivity filter of `get_alerts`: last referral strictly before
`today - partner_inactive_days`, or missing.  (`NaT < threshold` is false
in pandas, so the disjunction is what the source writes.) -/
def isInactive (today inactive_days : ℤ) (p : Partner) : Bool :=
  (match p.last_Referral with
   | some d => decide (d < today - inactive_days)
   | none => false) || p.last_Referral.isNone

/-- The alert dict built for one inactive partner in `get_alerts`. -/
def mkPartnerAlert (today : ℤ) (name : String) (last_Referral : Option ℤ) : Alert :=
  { type := "info"
    title := "Partner: " ++ name
    message := "No referrals in " ++ toString (partnerDaysInactive today last_Referral) ++ " days"
    action := "Re-engage partner" }

/-- The inactive-partner section of `get_alerts`: inactive rows with a
present (non-NaN) partner name each contribute one info alert. -/
def partnerAlerts (partners : List Partner) (inactive_days today : ℤ) : List Alert :=
  (partners.filter (isInactive today inactive_days)).filterMap (fun p =>
    match p.partner_Name with
    | some name => some (mkPartnerAlert today name p.last_Referral)
    | none => none)

/-- `DataLoader.get_alerts` from `data_loader.py`: starting from an empty
list, append the high-CPL warnings, then the aggregated overdue-content
alert, then the inactive-partner alerts. -/
def get_alerts (channels : List Channel) (content : List ContentItem)
    (partners : List Partner) (thresholds : Thresholds) (today : ℤ) : List Alert :=
  ([] ++ cplAlerts channels thresholds.max_cpl
      ++ overdueAlerts content today)
      ++ partnerAlerts partners thresholds.partner_inactive_days today

/-- A cell value as seen by the KPI extraction: a number, the pandas
`NaN` marker, or a non-numeric (string) cell kept as text. -/
inductive CellVal where
  | num (q : ℚ)
  | nan
  | str (s : String)
deriving DecidableEq

/-- `pd.isna` on a scalar cell: true exactly on `NaN`. -/
def pd_isna : CellVal → Bool
  | CellVal.nan => true
  | _ => false

/-- `DataLoader._get_default_kpis` from `data_loader.py`: the eight
default KPI metrics. -/
def default_kpis : List (String × CellVal) :=
  [("Total Leads", CellVal.num 285),
   ("Total Meetings", CellVal.num 67),
   ("Total Deals", CellVal.num 12),
   ("Pipeline Value", CellVal.num 2800000),
   ("Avg CPL", CellVal.num (65 / 2)),
   ("Lead to Meeting %", CellVal.num (47 / 2)),
   ("Meeting to Deal %", CellVal.num (179 / 10)),
   ("Avg Deal Size", CellVal.num 47200)]

/-- Lookup in an association-list view of a Python dict. -/
def kpiLookup (kpis : List (String × CellVal)) (key : String) : Option CellVal :=
  (kpis.find? (fun p => p.1 = key)).map (fun p => p.2)

/-- `DataLoader._ensure_key_metrics` from `data_loader.py`, viewed as the
mapping the mutated dict realises: for every key of the defaults dict, the
default replaces an absent or `NaN` entry (`if key not in kpis or
pd.isna(kpis[key])`); every other entry is left untouched. -/
def ensure_key_metrics (kpis : List (String × CellVal)) (key : String) : Option CellVal :=
  match kpiLookup default_kpis key with
  | some d =>
    match kpiLookup kpis key with
    | some v => if pd_isna v then some d else some v
    | none => some d
  | none => kpiLookup kpis key

end DataLoader

/-- C10: the week-over-week change function returns exactly the same value
as the month-over-month change function on all inputs, including the
`previous == 0 → 0` edge case. -/
theorem C10_wow_eq_mom :
    ∀ current previous : ℚ,
      MetricsCalculator.calculate_wow_change current previous =
        MetricsCalculator.calculate_mom_change current previous ∧
      MetricsCalculator.calculate_wow_change current 0 = 0 := by
  intro c p
  refine ⟨rfl, ?_⟩
  simp [MetricsCalculator.calculate_wow_change, MetricsCalculator.calculate_mom_change]

/-- C3 counterexample: with `spend = 10 > 0`, `a = 0 ≤ b = 1`, the claim
asserts `costPerLead(10, 0) ≥ costPerLead(10, 1)`, i.e. `0 ≥ 10`, which is
false: the zero-leads sentinel `0` breaks monotonicity at `leads = 0`. -/
theorem C3_counterexample :
    ¬ (MetricsCalculator.calculate_cpl 10 1 ≤ MetricsCalculator.calculate_cpl 10 0) := by
  norm_num [MetricsCalculator.calculate_cpl]

/-- C3 (amended): `costPerLead(spend, 0) = 0`, and for every fixed
`spend > 0` the map `leads ↦ costPerLead(spend, leads)` is monotonically
non-increasing over strictly positive leads (`0 < a ≤ b`). -/
theorem C3_cpl_antitone_on_positive_leads :
    (∀ spend : ℚ, MetricsCalculator.calculate_cpl spend 0 = 0) ∧
    (∀ spend a b : ℚ, 0 < spend → 0 < a → a ≤ b →
       MetricsCalculator.calculate_cpl spend b ≤ MetricsCalculator.calculate_cpl spend a) := by
  constructor
  · intro spend
    simp [MetricsCalculator.calculate_cpl]
  · intro spend a b hs ha hab
    have hb : 0 < b := lt_of_lt_of_le ha hab
    unfold MetricsCalculator.calculate_cpl
    rw [if_neg (ne_of_gt ha), if_neg (ne_of_gt hb)]
    rw [div_le_div_iff₀ hb ha]
    exact mul_le_mul_of_nonneg_left hab (le_of_lt hs)

/-- Witness for C3 (amended) at `spend = 10`, `a = 1`, `b = 2`. -/
theorem C3_cpl_antitone_on_positive_leads_witness :
    MetricsCalculator.calculate_cpl 10 0 = 0 ∧
    MetricsCalculator.calculate_cpl 10 2 ≤ MetricsCalculator.calculate_cpl 10 1 :=
  ⟨C3_cpl_antitone_on_positive_leads.1 10,
   C3_cpl_antitone_on_positive_leads.2 10 1 2 (by norm_num) (by norm_num) (by norm_num)⟩

/-- C4: `trendIndicator(100,100) = (neutral, →, neutral)`,
`trendIndicator(110,100) = (up, ↑, success)`,
`trendIndicator(110,100, reverse) = (up, ↑, danger)`; any change of
magnitude below 1% is neutral; and `reverse_polarity` never changes the
direction or the symbol, only the color. -/
theorem C4_trend_indicator :
    (MetricsCalculator.get_trend_indicator 100 100 false = ("neutral", "→", "neutral")) ∧
    (MetricsCalculator.get_trend_indicator 110 100 false = ("up", "↑", "success")) ∧
    (MetricsCalculator.get_trend_indicator 110 100 true = ("up", "↑", "danger")) ∧
    (∀ (current previous : ℚ) (r : Bool),
       ratAbs ((current - previous) / ratAbs previous * 100) < 1 →
       MetricsCalculator.get_trend_indicator current previous r = ("neutral", "→", "neutral")) ∧
    (∀ current previous : ℚ,
       (MetricsCalculator.get_trend_indicator current previous true).1 =
         (MetricsCalculator.get_trend_indicator current previous false).1 ∧
       (MetricsCalculator.get_trend_indicator current previous true).2.1 =
         (MetricsCalculator.get_trend_indicator current previous false).2.1) := by
  refine ⟨?_, ?_, ?_, ?_, ?_⟩
  · norm_num [MetricsCalculator.get_trend_indicator, ratAbs]
  · norm_num [MetricsCalculator.get_trend_indicator, ratAbs]
  · norm_num [MetricsCalculator.get_trend_indicator, ratAbs]
  · intro c p r h
    unfold MetricsCalculator.get_trend_indicator
    by_cases hp : p = 0
    · simp [hp]
    · rw [if_neg hp]
      simp [h]
  · intro c p
    unfold MetricsCalculator.get_trend_indicator
    by_cases hp : p = 0
    · simp [hp]
    · rw [if_neg hp, if_neg hp]
      by_cases h1 : ratAbs ((c - p) / ratAbs p * 100) < 1
      · simp [h1]
      · by_cases h2 : 0 < (c - p) / ratAbs p * 100 <;> simp [h1, h2]

/-- Witness for C4 at `current = previous = 200` (a 0% change). -/
theorem C4_trend_indicator_witness :
    ratAbs ((200 - 200) / ratAbs 200 * 100) < 1 ∧
    MetricsCalculator.get_trend_indicator 200 200 true = ("neutral", "→", "neutral") :=
  ⟨by norm_num [ratAbs], C4_trend_indicator.2.2.2.1 200 200 true (by norm_num [ratAbs])⟩

/-- C5: `formatCurrency(1234567) = "£1.2M"`, `formatCurrency(1234) =
"£1.2K"`, `formatCurrency(12.5) = "£12.50"`; magnitudes of at least a
million are rendered in M with one decimal, at least a thousand in K with
one decimal, and smaller values with two decimals after the £ symbol. -/
theorem C5_format_currency :
    (MetricsCalculator.format_currency 1234567 true = "£1.2M") ∧
    (MetricsCalculator.format_currency 1234 true = "£1.2K") ∧
    (MetricsCalculator.format_currency (25 / 2) true = "£12.50") ∧
    (∀ v : ℚ, 1000000 ≤ ratAbs v →
       MetricsCalculator.format_currency v true = "£" ++ formatFixed (v / 1000000) 1 ++ "M") ∧
    (∀ v : ℚ, ratAbs v < 1000000 → 1000 ≤ ratAbs v →
       MetricsCalculator.format_currency v true = "£" ++ formatFixed (v / 1000) 1 ++ "K") ∧
    (∀ v : ℚ, ratAbs v < 1000 →
       MetricsCalculator.format_currency v true = "£" ++ formatFixed v 2) := by
  refine ⟨?_, ?_, ?_, ?_, ?_, ?_⟩
  · norm_num [MetricsCalculator.format_currency, formatFixed, roundHalfEven, ratAbs]
    decide
  · norm_num [MetricsCalculator.format_currency, formatFixed, roundHalfEven, ratAbs]
    decide
  · norm_num [MetricsCalculator.format_currency, formatFixed, roundHalfEven, ratAbs]
    decide
  · intro v h
    simp [MetricsCalculator.format_currency, h]
  · intro v h1 h2
    simp [MetricsCalculator.format_currency, not_le.mpr h1, h2]
  · intro v h
    have h1 : ratAbs v < 1000000 := lt_trans h (by norm_num)
    simp [MetricsCalculator.format_currency, not_le.mpr h1, not_le.mpr h]

/-- Witness for C5 on each magnitude branch: `2000000`, `2000`, `10`. -/
theorem C5_format_currency_witness :
    ((1000000 : ℚ) ≤ ratAbs 2000000 ∧
      MetricsCalculator.format_currency 2000000 true =
        "£" ++ formatFixed (2000000 / 1000000) 1 ++ "M") ∧
    (ratAbs 2000 < 1000000 ∧ (1000 : ℚ) ≤ ratAbs 2000 ∧
      MetricsCalculator.format_currency 2000 true =
        "£" ++ formatFixed (2000 / 1000) 1 ++ "K") ∧
    (ratAbs 10 < 1000 ∧
      MetricsCalculator.format_currency 10 true = "£" ++ formatFixed 10 2) :=
  ⟨⟨by norm_num [ratAbs], C5_format_currency.2.2.2.1 2000000 (by norm_num [ratAbs])⟩,
   ⟨by norm_num [ratAbs], by norm_num [ratAbs],
    C5_format_currency.2.2.2.2.1 2000 (by norm_num [ratAbs]) (by norm_num [ratAbs])⟩,
   ⟨by norm_num [ratAbs], C5_format_currency.2.2.2.2.2 10 (by norm_num [ratAbs])⟩⟩

/-- C2: with the default benchmarks (`benchmark_cpl = 25`,
`benchmark_conversion = 20`), `channelEfficiencyScore` lies in `[0, 100]`
for all non-negative inputs, including pathological lead volumes. -/
theorem C2_efficiency_score_bounded (leads cpl conversion_rate : ℚ)
    (hl : 0 ≤ leads) (hc : 0 ≤ cpl) (hr : 0 ≤ conversion_rate) :
    0 ≤ MetricsCalculator.calculate_channel_efficiency_score leads cpl conversion_rate 25 20 ∧
    MetricsCalculator.calculate_channel_efficiency_score leads cpl conversion_rate 25 20 ≤ 100 := by
  unfold MetricsCalculator.calculate_channel_efficiency_score
  have hvol0 : (0 : ℚ) ≤ min 30 (leads / 50 * 30) :=
    le_min (by norm_num) (mul_nonneg (div_nonneg hl (by norm_num)) (by norm_num))
  have hvol1 : min 30 (leads / 50 * 30) ≤ 30 := min_le_left _ _
  have hconv0 : (0 : ℚ) ≤ min 35 (conversion_rate / 20 * 35) :=
    le_min (by norm_num) (mul_nonneg (div_nonneg hr (by norm_num)) (by norm_num))
  have hconv1 : min 35 (conversion_rate / 20 * 35) ≤ 35 := min_le_left _ _
  by_cases hcpos : 0 < cpl
  · have hcost0 : (0 : ℚ) ≤ min 35 (25 / cpl * 35) :=
      le_min (by norm_num) (mul_nonneg (div_nonneg (by norm_num) hc) (by norm_num))
    have hcost1 : min 35 (25 / cpl * 35) ≤ 35 := min_le_left _ _
    rw [if_pos hcpos]
    constructor
    · linarith
    · linarith
  · rw [if_neg hcpos]
    constructor
    · linarith
    · linarith

/-- Witness for C2 at the pathological input `leads = 10000`,
`cpl = 5`, `conversion_rate = 10`. -/
theorem C2_efficiency_score_bounded_witness :
    0 ≤ MetricsCalculator.calculate_channel_efficiency_score 10000 5 10 25 20 ∧
    MetricsCalculator.calculate_channel_efficiency_score 10000 5 10 25 20 ≤ 100 :=
  C2_efficiency_score_bounded 10000 5 10 (by norm_num) (by norm_num) (by norm_num)

/-- C1: the high-CPL section emits one warning per channel exactly when
`CPL > max_cpl` and `CPL > 0`; the alert is a `warning` whose title
references the channel; a channel with `CPL = 60` under `max_cpl = 50`
yields exactly one warning through `get_alerts`; a channel with `CPL = 0`
yields no alert for any threshold. -/
theorem C1_high_cpl_rule :
    (∀ (channels : List Channel) (max_cpl : ℚ),
       DataLoader.cplAlerts channels max_cpl =
         (channels.filter (fun ch => decide (max_cpl < ch.cpl) && decide (0 < ch.cpl))).map
           (DataLoader.mkCplAlert max_cpl)) ∧
    (∀ (max_cpl : ℚ) (ch : Channel),
       (DataLoader.mkCplAlert max_cpl ch).type = "warning" ∧
       (DataLoader.mkCplAlert max_cpl ch).title = ch.channel ++ ": High CPL" ∧
       (DataLoader.mkCplAlert max_cpl ch).action = "Review campaign performance") ∧
    (DataLoader.get_alerts [⟨"Google Ads", "Paid", "Active", "Low", 300, 5, 60, 20⟩] [] []
       ⟨50, 60⟩ 0 =
       [DataLoader.mkCplAlert 50 ⟨"Google Ads", "Paid", "Active", "Low", 300, 5, 60, 20⟩]) ∧
    (∀ max_cpl : ℚ, DataLoader.cplAlerts
       [⟨"Partner Referrals", "Inbound", "Active", "High", 0, 25, 0, 68⟩] max_cpl = []) := by
  refine ⟨?_, ?_, ?_, ?_⟩
  · intro channels max_cpl
    induction channels with
    | nil => rfl
    | cons ch rest ih =>
      simp only [DataLoader.cplAlerts] at ih ⊢
      by_cases h1 : max_cpl < ch.cpl
      · by_cases h2 : 0 < ch.cpl
        · simp [List.filter_cons, List.filterMap_cons, h1, h2, ih]
        · simp [List.filter_cons, List.filterMap_cons, h1, h2, ih]
      · simp [List.filter_cons, h1, ih]
  · intro max_cpl ch
    exact ⟨rfl, rfl, rfl⟩
  · show DataLoader.cplAlerts _ 50 ++ DataLoader.overdueAlerts [] 0 ++
      DataLoader.partnerAlerts [] 60 0 = _
    norm_num [DataLoader.cplAlerts, DataLoader.overdueAlerts, DataLoader.partnerAlerts,
      List.filter_cons, List.filterMap_cons]
  · intro max_cpl
    by_cases h : max_cpl < (0 : ℚ) <;>
      simp [DataLoader.cplAlerts, List.filter_cons, h]

/-- C7: when the number of overdue, non-completed content rows is positive
the overdue-content section emits exactly one urgent alert stating that
count, and when the count is zero it emits nothing; a row is overdue
exactly when its due date is present and strictly before today and its
status differs from `Completed`. -/
theorem C7_overdue_content_rule :
    (∀ (content : List ContentItem) (today : ℤ),
       0 < (content.filter (DataLoader.isOverdue today)).length →
       DataLoader.overdueAlerts content today =
         [DataLoader.mkOverdueAlert (content.filter (DataLoader.isOverdue today)).length]) ∧
    (∀ (content : List ContentItem) (today : ℤ),
       (content.filter (DataLoader.isOverdue today)).length = 0 →
       DataLoader.overdueAlerts content today = []) ∧
    (∀ (today : ℤ) (item : ContentItem),
       DataLoader.isOverdue today item = true ↔
         (∃ d, item.due_Date = some d ∧ d < today) ∧ item.status ≠ "Completed") ∧
    (∀ n : Nat,
       (DataLoader.mkOverdueAlert n).type = "urgent" ∧
       (DataLoader.mkOverdueAlert n).title = toString n ++ " content item(s) overdue" ∧
       (DataLoader.mkOverdueAlert n).action = "Complete or reschedule") := by
  refine ⟨?_, ?_, ?_, ?_⟩
  · intro content today h
    simp only [DataLoader.overdueAlerts]
    rw [if_pos h]
  · intro content today h
    simp only [DataLoader.overdueAlerts]
    rw [if_neg (by omega)]
  · intro today item
    unfold DataLoader.isOverdue
    cases hd : item.due_Date with
    | none => simp [hd]
    | some d => simp [hd]
  · intro n
    exact ⟨rfl, rfl, rfl⟩

/-- Witness for C7: one overdue planned item due on day 0 evaluated on
day 5, and an empty calendar. -/
theorem C7_overdue_content_rule_witness :
    DataLoader.overdueAlerts [⟨"Blog post", "Planned", some 0⟩] 5 =
      [DataLoader.mkOverdueAlert 1] ∧
    DataLoader.overdueAlerts [] 5 = [] :=
  ⟨C7_overdue_content_rule.1 [⟨"Blog post", "Planned", some 0⟩] 5 (by decide),
   C7_overdue_content_rule.2.1 [] 5 rfl⟩

/-- C8: `get_alerts` is deterministic — identical channel, content,
partner, threshold and evaluation-time inputs give identical alert lists —
and the output is always the CPL warnings, then the aggregated
overdue-content alert, then the inactive-partner alerts, in that order. -/
theorem C8_alerts_deterministic :
    ∀ (ch ch2 : List Channel) (co co2 : List ContentItem) (pa pa2 : List Partner)
      (th th2 : Thresholds) (t t2 : ℤ),
      ch = ch2 → co = co2 → pa = pa2 → th = th2 → t = t2 →
      DataLoader.get_alerts ch co pa th t = DataLoader.get_alerts ch2 co2 pa2 th2 t2 ∧
      DataLoader.get_alerts ch co pa th t =
        DataLoader.cplAlerts ch th.max_cpl ++ DataLoader.overdueAlerts co t ++
          DataLoader.partnerAlerts pa th.partner_inactive_days t := by
  intro ch ch2 co co2 pa pa2 th th2 t t2 hch hco hpa hth ht
  subst hch; subst hco; subst hpa; subst hth; subst ht
  exact ⟨rfl, by simp [DataLoader.get_alerts]⟩

/-- Witness for C8 on a concrete evaluation with empty inputs. -/
theorem C8_alerts_deterministic_witness :
    DataLoader.get_alerts [] [] [] ⟨50, 60⟩ 0 = DataLoader.get_alerts [] [] [] ⟨50, 60⟩ 0 ∧
    DataLoader.get_alerts [] [] [] ⟨50, 60⟩ 0 =
      DataLoader.cplAlerts [] 50 ++ DataLoader.overdueAlerts [] 0 ++
        DataLoader.partnerAlerts [] 60 0 :=
  C8_alerts_deterministic [] [] [] [] [] [] ⟨50, 60⟩ ⟨50, 60⟩ 0 0 rfl rfl rfl rfl rfl

/-- C6: a partner row with a present name contributes exactly one `info`
alert exactly when its last-referral date is missing or strictly before
`today - partner_inactive_days`; the computed days-inactive is
`today - lastReferral` when the date is present and the sentinel `999`
when it is missing, and the recommended action is `Re-engage partner`. -/
theorem C6_inactive_partner_rule :
    (∀ (name : String) (lastRef : Option ℤ) (days today : ℤ),
       DataLoader.partnerAlerts [⟨some name, lastRef⟩] days today =
         if DataLoader.isInactive today days ⟨some name, lastRef⟩ then
           [DataLoader.mkPartnerAlert today name lastRef]
         else []) ∧
    (∀ (days today : ℤ) (p : Partner),
       DataLoader.isInactive today days p = true ↔
         p.last_Referral = none ∨ ∃ d, p.last_Referral = some d ∧ d < today - days) ∧
    (∀ today : ℤ, DataLoader.partnerDaysInactive today none = 999) ∧
    (∀ today d : ℤ, DataLoader.partnerDaysInactive today (some d) = today - d) ∧
    (∀ (today : ℤ) (name : String) (lastRef : Option ℤ),
       (DataLoader.mkPartnerAlert today name lastRef).type = "info" ∧
       (DataLoader.mkPartnerAlert today name lastRef).title = "Partner: " ++ name ∧
       (DataLoader.mkPartnerAlert today name lastRef).message =
         "No referrals in " ++ toString (DataLoader.partnerDaysInactive today lastRef) ++
           " days" ∧
       (DataLoader.mkPartnerAlert today name lastRef).action = "Re-engage partner") ∧
    (∀ (partners : List Partner) (days today : ℤ),
       (DataLoader.partnerAlerts partners days today).length =
         (partners.filter (fun p =>
           DataLoader.isInactive today days p && p.partner_Name.isSome)).length) := by
  refine ⟨?_, ?_, ?_, ?_, ?_, ?_⟩
  · intro name lastRef days today
    by_cases h : DataLoader.isInactive today days ⟨some name, lastRef⟩ <;>
      simp [DataLoader.partnerAlerts, List.filter_cons, h]
  · intro days today p
    unfold DataLoader.isInactive
    cases h : p.last_Referral with
    | none => simp [h]
    | some d => simp [h]
  · intro today
    rfl
  · intro today d
    rfl
  · intro today name lastRef
    exact ⟨rfl, rfl, rfl, rfl⟩
  · intro partners days today
    induction partners with
    | nil => rfl
    | cons p rest ih =>
      simp only [DataLoader.partnerAlerts] at ih ⊢
      by_cases h1 : DataLoader.isInactive today days p
      · cases hn : p.partner_Name with
        | none => simp [List.filter_cons, List.filterMap_cons, h1, hn, ih]
        | some name => simp [List.filter_cons, List.filterMap_cons, h1, hn, ih]
      · simp [List.filter_cons, h1, ih]

/-- C9 counterexample: a present but non-numeric (string) value for
`Total Leads` is NOT replaced by the documented default 285 — the source
only substitutes the default when the key is absent or the value is NaN
(`if key not in kpis or pd.isna(kpis[key])`), and `pd.isna` is false on a
string. -/
theorem C9_counterexample :
    DataLoader.ensure_key_metrics [("Total Leads", DataLoader.CellVal.str "N/A")]
      "Total Leads" ≠ some (DataLoader.CellVal.num 285) := by
  decide

/-- C9 (amended): for each of the eight named metrics the extraction
substitutes the documented default when the metric is absent or its value
is NaN, and passes every present non-NaN value through unchanged (even a
non-numeric string value). -/
theorem C9_kpi_defaults :
    (∀ (kpis : List (String × DataLoader.CellVal)) (key : String) (d : DataLoader.CellVal),
       DataLoader.kpiLookup DataLoader.default_kpis key = some d →
       DataLoader.kpiLookup kpis key = none →
       DataLoader.ensure_key_metrics kpis key = some d) ∧
    (∀ (kpis : List (String × DataLoader.CellVal)) (key : String) (d : DataLoader.CellVal),
       DataLoader.kpiLookup DataLoader.default_kpis key = some d →
       DataLoader.kpiLookup kpis key = some DataLoader.CellVal.nan →
       DataLoader.ensure_key_metrics kpis key = some d) ∧
    (∀ (kpis : List (String × DataLoader.CellVal)) (key : String) (v : DataLoader.CellVal),
       DataLoader.kpiLookup kpis key = some v → DataLoader.pd_isna v = false →
       DataLoader.ensure_key_metrics kpis key = some v) ∧
    (DataLoader.kpiLookup DataLoader.default_kpis "Total Leads" =
       some (DataLoader.CellVal.num 285) ∧
     DataLoader.kpiLookup DataLoader.default_kpis "Total Meetings" =
       some (DataLoader.CellVal.num 67) ∧
     DataLoader.kpiLookup DataLoader.default_kpis "Total Deals" =
       some (DataLoader.CellVal.num 12) ∧
     DataLoader.kpiLookup DataLoader.default_kpis "Pipeline Value" =
       some (DataLoader.CellVal.num 2800000) ∧
     DataLoader.kpiLookup DataLoader.default_kpis "Avg CPL" =
       some (DataLoader.CellVal.num (65 / 2)) ∧
     DataLoader.kpiLookup DataLoader.default_kpis "Lead to Meeting %" =
       some (DataLoader.CellVal.num (47 / 2)) ∧
     DataLoader.kpiLookup DataLoader.default_kpis "Meeting to Deal %" =
       some (DataLoader.CellVal.num (179 / 10)) ∧
     DataLoader.kpiLookup DataLoader.default_kpis "Avg Deal Size" =
       some (DataLoader.CellVal.num 47200)) := by
  refine ⟨?_, ?_, ?_, ?_⟩
  · intro kpis key d hd hk
    unfold DataLoader.ensure_key_metrics
    rw [hd, hk]
  · intro kpis key d hd hk
    unfold DataLoader.ensure_key_metrics
    rw [hd, hk]
    rfl
  · intro kpis key v hv hna
    unfold DataLoader.ensure_key_metrics
    cases hd : DataLoader.kpiLookup DataLoader.default_kpis key with
    | none => rw [hv]
    | some d =>
      rw [hv]
      simp [hna]
  · exact ⟨rfl, rfl, rfl, rfl, rfl, rfl, rfl, rfl⟩

/-- Witness for C9 (amended): an absent metric, a NaN metric, and a
present numeric metric for the `Total Leads` key. -/
theorem C9_kpi_defaults_witness :
    DataLoader.ensure_key_metrics [] "Total Leads" = some (DataLoader.CellVal.num 285) ∧
    DataLoader.ensure_key_metrics [("Total Leads", DataLoader.CellVal.nan)] "Total Leads" =
      some (DataLoader.CellVal.num 285) ∧
    DataLoader.ensure_key_metrics [("Total Leads", DataLoader.CellVal.num 300)] "Total Leads" =
      some (DataLoader.CellVal.num 300) :=
  ⟨C9_kpi_defaults.1 [] "Total Leads" (DataLoader.CellVal.num 285) rfl rfl,
   C9_kpi_defaults.2.1 [("Total Leads", DataLoader.CellVal.nan)] "Total Leads"
     (DataLoader.CellVal.num 285) rfl rfl,
   C9_kpi_defaults.2.2.1 [("Total Leads", DataLoader.CellVal.num 300)] "Total Leads"
     (DataLoader.CellVal.num 300) rfl rfl⟩
